import Mathlib

/-!
# Verification of the Lua scripting bridge (`bevy_mod_scripting`)

A shallow embedding of `crates/bevy_script_api/src/lua/bevy/mod.rs`: the
Lua-facing methods of `LuaWorld`, `LuaQueryBuilder` and `LuaQueryResult`,
together with the pieces of `ScriptWorld` (from `common/bevy.rs`, outside the
provided sources) and of the external bevy reflection registry that those
methods call, modelled from the specification where the code is not available.

Entities, type identities and dynamic values are represented by naturals;
the world state is explicit (liveness list, component store, resource store,
children links) and every operation is an executable function on it.
-/

namespace BevyModScripting

/-- An ECS entity identifier (`bevy::prelude::Entity`). -/
abbrev EntityId := Nat

/-- The underlying native type identity (`std::any::TypeId`):
`ScriptTypeRegistration` equality "by underlying type" compares this. -/
abbrev TypeId := Nat

/-- A type-erased component/resource value (`ReflectedValue`). -/
abbrev DynValue := Nat

/-- One entry of the app type registry, as exposed through
`ScriptTypeRegistration` (a `TypeHandle`): short name, full type path,
underlying type identity, and whether `ReflectResource` type data was
registered for it (`res_type.data::<ReflectResource>()` is `Some`). -/
structure TypeRegistration where
  short_name : String
  type_path : String
  type_id : TypeId
  has_reflect_resource : Bool
deriving Repr, DecidableEq

/-- The registry is the ordered collection of registrations. -/
abbrev TypeRegistry := List TypeRegistration

/-- The world state visible to the bridge: which entities are live, the
component store keyed by (entity, type identity), the resource store keyed by
type identity, and the hierarchy's children links. -/
structure World where
  live : List EntityId
  components : List ((EntityId × TypeId) × DynValue)
  resources : List (TypeId × DynValue)
  childrenOf : List (EntityId × List EntityId)
deriving Repr, DecidableEq

/-- A raised Lua error (`mlua::Error::RuntimeError(msg)`): every failure the
bridge raises across the script boundary carries a message string. -/
inductive LuaError where
  | RuntimeError (msg : String)
deriving Repr, DecidableEq

/-! ## Type registry lookup (`get_type_by_name`) -/

/-- Modelled from the spec: the external reflection capability's
`resolve_by_short_name` (`TypeRegistry::get_with_short_type_path`), the first
registration whose short name matches. -/
def get_with_short_type_path (reg : TypeRegistry) (name : String) :
    Option TypeRegistration :=
  reg.find? (fun r => r.short_name == name)

/-- Modelled from the spec: the external reflection capability's
`resolve_by_full_path` (`TypeRegistry::get_with_type_path`), the first
registration whose full type path matches. -/
def get_with_type_path (reg : TypeRegistry) (name : String) :
    Option TypeRegistration :=
  reg.find? (fun r => r.type_path == name)

/-- `LuaWorld::get_type_by_name`: tries the short-name match first and falls
back to the fully-qualified path match
(`registry.get_with_short_type_path(..).or_else(|| registry.get_with_type_path(..))`). -/
def get_type_by_name (reg : TypeRegistry) (type_name : String) :
    Option TypeRegistration :=
  (get_with_short_type_path reg type_name).orElse
    (fun _ => get_with_type_path reg type_name)

/-- The Lua method boundary of `get_type_by_name`: the lookup itself never
raises, absence is returned as `nil` (here `none`). -/
def lua_get_type_by_name (reg : TypeRegistry) (type_name : String) :
    Except LuaError (Option TypeRegistration) :=
  .ok (get_type_by_name reg type_name)

/-! ## Query results and the stepping function (`iter`) -/

/-- `ScriptQueryResult`: one entity paired with the ordered dynamic values of
its queried components (`.0` and `.1` of the tuple struct). -/
structure ScriptQueryResult where
  entity : EntityId
  comps : List DynValue
deriving Repr, DecidableEq

/-- One call of the stepping closure produced by `LuaQueryBuilder::iter`,
acting on the captured snapshot `query_result` and cursor `curr_idx`:
if `curr_idx < len` it takes `query_result.get(curr_idx).unwrap()` (an
out-of-bounds `get` would panic at the `unwrap`, embedded as `.error`);
otherwise it yields the exhausted marker (`QueryResultTuple::None`); the
cursor is incremented in both cases. -/
def iterStep (query_result : List ScriptQueryResult) (curr_idx : Nat) :
    Except String (Option ScriptQueryResult × Nat) :=
  if curr_idx < query_result.length then
    match query_result.get? curr_idx with
    | some r => .ok (some r, curr_idx + 1)
    | none => .error "called Option::unwrap on a None value"
  else
    .ok (none, curr_idx + 1)

/-- The cursor value held by the closure after `n` calls, starting from `0`
(on the never-taken panic branch the cursor is left as is). -/
def stateAfter (query_result : List ScriptQueryResult) : Nat → Nat
  | 0 => 0
  | n + 1 =>
    match iterStep query_result (stateAfter query_result n) with
    | .ok (_, next) => next
    | .error _ => stateAfter query_result n

/-! ## `IntoLuaMulti` for `LuaQueryResult` -/

/-- A Lua-side value produced by the bridge's conversions: either a converted
`LuaEntity` or a converted reflected component value. -/
inductive LuaValue where
  | entity (e : EntityId)
  | reflected (v : DynValue)
deriving Repr, DecidableEq

/-- `IntoLua` for a reflected component value. -/
def value_into_lua (v : DynValue) : Except LuaError LuaValue :=
  .ok (.reflected v)

/-- `IntoLua` for `LuaEntity::new(e)`. -/
def entity_into_lua (e : EntityId) : Except LuaError LuaValue :=
  .ok (.entity e)

/-- `IntoLuaMulti for LuaQueryResult`: converts each component value of `self.1`
in order (collecting the fallible results), then pushes the converted entity
`self.0` to the front. -/
def into_lua_multi (r : ScriptQueryResult) : Except LuaError (List LuaValue) := do
  let values ← r.comps.mapM value_into_lua
  let ent ← entity_into_lua r.entity
  pure (ent :: values)

/-! ## Component accessor (`get_component`, `remove_component`) -/

/-- Whether an entity id still resolves to a live entity. -/
def World.isLive (w : World) (e : EntityId) : Bool :=
  w.live.contains e

/-- Modelled from the spec: `ScriptWorld::get_component`
(`crates/bevy_script_api/src/common/bevy.rs`, not among the provided sources):
absence of the component on a live entity is `Ok(None)`; an entity id that no
longer resolves fails with `InvalidEntity` semantics. -/
def ScriptWorld.get_component (w : World) (e : EntityId) (t : TypeId) :
    Except String (Option DynValue) :=
  if w.isLive e then
    .ok (w.components.lookup (e, t))
  else
    .error ("invalid entity reference in get_component")

/-- The Lua method `get_component`: forwards to `ScriptWorld::get_component`,
mapping any accessor error to a raised `RuntimeError` carrying its message
(`.map_err(|e| mlua::Error::RuntimeError(e.to_string()))`). -/
def lua_get_component (w : World) (e : EntityId) (t : TypeId) :
    Except LuaError (Option DynValue) :=
  match ScriptWorld.get_component w e t with
  | .ok v => .ok v
  | .error msg => .error (.RuntimeError msg)

/-- Modelled from the spec: `ScriptWorld::remove_component`
(`crates/bevy_script_api/src/common/bevy.rs`, not among the provided sources):
removes the component if present, a no-op (not an error) if absent; an entity
id that no longer resolves fails with `InvalidEntity` semantics. -/
def ScriptWorld.remove_component (w : World) (e : EntityId) (t : TypeId) :
    Except String World :=
  if w.isLive e then
    .ok { w with
          components := w.components.filter (fun c => c.1 != (e, t)) }
  else
    .error ("invalid entity reference in remove_component")

/-- The Lua method `remove_component`: forwards to
`ScriptWorld::remove_component`, mapping errors to `RuntimeError`. -/
def lua_remove_component (w : World) (e : EntityId) (t : TypeId) :
    Except LuaError World :=
  match ScriptWorld.remove_component w e t with
  | .ok w2 => .ok w2
  | .error msg => .error (.RuntimeError msg)

/-! ## Resource accessor (`has_resource`, `remove_resource`) -/

/-- `res_type.data::<ReflectResource>()` of the Lua methods: present exactly
when the registration carries `ReflectResource` type data. -/
def TypeRegistration.reflect_resource_data (t : TypeRegistration) :
    Option TypeId :=
  if t.has_reflect_resource then some t.type_id else none

/-- `ReflectResource::reflect(&w).is_some()`: whether the world holds a
resource of the given underlying type. -/
def World.hasResourceOf (w : World) (tid : TypeId) : Bool :=
  (w.resources.lookup tid).isSome

/-- `ReflectResource::remove(&mut w)`: drops the resource of the given
underlying type from the world, if any. -/
def World.removeResourceOf (w : World) (tid : TypeId) : World :=
  { w with resources := w.resources.filter (fun r => r.1 != tid) }

/-- The Lua method `remove_resource`: looks up `ReflectResource` type data,
raising `RuntimeError("Not a resource {short_name}")` if the handle carries
none (before touching the world), and otherwise removes the resource. The
returned pair is (raised outcome, world after the call). -/
def lua_remove_resource (w : World) (res_type : TypeRegistration) :
    Except LuaError Unit × World :=
  match res_type.reflect_resource_data with
  | none =>
    let n := res_type.short_name
    (.error (.RuntimeError ("Not a resource " ++ n)), w)
  | some tid => (.ok (), w.removeResourceOf tid)

/-- The Lua method `has_resource`: looks up `ReflectResource` type data,
raising `RuntimeError("Not a resource {short_name}")` if the handle carries
none, and otherwise returns whether `reflect(&w)` is `Some`. -/
def lua_has_resource (w : World) (res_type : TypeRegistration) :
    Except LuaError Bool :=
  match res_type.reflect_resource_data with
  | none =>
    let n := res_type.short_name
    .error (.RuntimeError ("Not a resource " ++ n))
  | some tid => .ok (w.hasResourceOf tid)

/-! ## Query building and the snapshot cursor -/

/-- `ScriptQueryBuilder`: the queried component list plus the `with`/`without`
filter sets accumulated before `build()`. -/
structure ScriptQueryBuilder where
  comps : List TypeId
  withFilters : List TypeId
  withoutFilters : List TypeId
deriving Repr, DecidableEq

/-- Whether an entity currently has a component of the given type. -/
def World.hasComponentOf (w : World) (e : EntityId) (t : TypeId) : Bool :=
  (w.components.lookup (e, t)).isSome

/-- Modelled from the spec: `ScriptQueryBuilder::build`
(`crates/bevy_script_api/src/common/bevy.rs`, not among the provided sources):
eagerly materializes, at build time and in world storage order, one
`ScriptQueryResult` per live entity that has every queried and required
component and none of the excluded ones, pairing the entity with its queried
component values in declared order; fails with `AmbiguousFilter` when a type
is both required and excluded. -/
def ScriptQueryBuilder.build (b : ScriptQueryBuilder) (w : World) :
    Except String (List ScriptQueryResult) :=
  if (b.comps ++ b.withFilters).any (fun t => b.withoutFilters.contains t) then
    .error "AmbiguousFilter"
  else
    .ok (w.live.filterMap (fun e =>
      if (b.comps ++ b.withFilters).all (fun t => w.hasComponentOf e t)
          && b.withoutFilters.all (fun t => !w.hasComponentOf e t) then
        match b.comps.mapM (fun t => w.components.lookup (e, t)) with
        | some vs => some ⟨e, vs⟩
        | none => none
      else
        none))

/-- The state captured by the stepping closure `iter` returns: the snapshot
vector built once at `build()` time and the mutable cursor index. -/
structure Cursor where
  snapshot : List ScriptQueryResult
  curr_idx : Nat
deriving Repr, DecidableEq

/-- One step of the cursor, with the world at call time passed in: the closure
captures only `query_result` and `curr_idx`, so the world argument is unused
(this is the faithful shape of the source closure, which takes no world). On
the unreachable panic branch the cursor yields the exhausted marker. -/
def Cursor.stepInWorld (c : Cursor) (_w : World) :
    Option ScriptQueryResult × Cursor :=
  match iterStep c.snapshot c.curr_idx with
  | .ok (o, next) => (o, { c with curr_idx := next })
  | .error _ => (none, c)

/-- The outputs of stepping the cursor once per world in the trajectory `ws`
(each step sees the world as mutated at that time). -/
def Cursor.outputsAlong (c : Cursor) : List World → List (Option ScriptQueryResult)
  | [] => []
  | w :: ws =>
    let (o, c2) := c.stepInWorld w
    o :: c2.outputsAlong ws

/-! ## Hierarchy (`push_children`, `insert_children`) -/

/-- The children list attached to a parent (empty when none). -/
def World.getChildren (w : World) (p : EntityId) : List EntityId :=
  (w.childrenOf.lookup p).getD []

/-- Replaces the children list attached to a parent. -/
def World.setChildren (w : World) (p : EntityId) (cs : List EntityId) : World :=
  { w with childrenOf := (p, cs) :: w.childrenOf.filter (fun x => x.1 != p) }

/-- `World::get_entity_mut`: `Some` exactly when the entity id still resolves
to a live entity (bevy returns `None` for a despawned entity). -/
def World.get_entity_mut (w : World) (e : EntityId) : Option EntityId :=
  if w.isLive e then some e else none

/-- `EntityWorldMut::push_children`: appends the children to the end of the
parent's children list. -/
def pushChildrenImpl (w : World) (parent : EntityId) (children : List EntityId) :
    World :=
  w.setChildren parent (w.getChildren parent ++ children)

/-- The Lua method `push_children`: resolves the children ids, then
`if let Some(mut entity) = w.get_entity_mut(parent) { entity.push_children(..) }`
— a parent that no longer resolves is silently skipped — and returns `Ok(())`
in both cases. The pair is (raised outcome, world after the call). -/
def lua_push_children (w : World) (parent : EntityId)
    (children : List EntityId) : Except LuaError Unit × World :=
  match w.get_entity_mut parent with
  | some p => (.ok (), pushChildrenImpl w p children)
  | none => (.ok (), w)

/-- Modelled from the spec: `ScriptWorld::insert_children`
(`crates/bevy_script_api/src/common/bevy.rs`, not among the provided sources):
inserts the children into the parent's children list at the given index,
clamping an out-of-range index to the end (the spec's documented clamp
policy). -/
def ScriptWorld.insert_children (w : World) (parent : EntityId) (index : Nat)
    (children : List EntityId) : World :=
  let old := w.getChildren parent
  let i := min index old.length
  w.setChildren parent (old.take i ++ children ++ old.drop i)

/-- The Lua method `insert_children`: forwards to
`ScriptWorld::insert_children` and returns `Ok(())`. -/
def lua_insert_children (w : World) (parent : EntityId) (index : Nat)
    (children : List EntityId) : Except LuaError Unit × World :=
  (.ok (), ScriptWorld.insert_children w parent index children)

/-! ## Despawning -/

/-- Modelled from the spec: `World::despawn` (the bevy call the Lua method
`despawn` forwards to): returns `true` and removes the entity (its liveness,
components and hierarchy links) when the id resolves, returns `false` and
leaves the world untouched when the entity was already gone — never an
error. -/
def World.despawn (w : World) (e : EntityId) : Bool × World :=
  if w.isLive e then
    (true,
      { live := w.live.filter (fun x => x != e),
        components := w.components.filter (fun c => c.1.1 != e),
        resources := w.resources,
        childrenOf := w.childrenOf.filter (fun x => x.1 != e) })
  else
    (false, w)

/-- The Lua method `despawn`: `Ok(w.despawn(entity))` — the boolean is
returned to the script, never an error for a missing entity. -/
def lua_despawn (w : World) (e : EntityId) :
    Except LuaError (Bool × World) :=
  .ok (World.despawn w e)

/-! ## Helper lemmas -/

/-- Every call of the stepping closure returns `Ok`: the candidate result is
exactly `query_result.get?` at the cursor, and the cursor advances by one. -/
lemma iterStep_eq (qr : List ScriptQueryResult) (i : Nat) :
    iterStep qr i = .ok (qr.get? i, i + 1) := by
  unfold iterStep
  by_cases h : i < qr.length
  · rw [if_pos h]
    cases hg : qr.get? i with
    | none =>
      exact absurd (List.get?_eq_none.mp hg) (Nat.not_le.mpr h)
    | some r => rfl
  · rw [if_neg h]
    rw [List.get?_eq_none.mpr (Nat.le_of_not_lt h)]

/-- After `n` calls the captured cursor equals `n`. -/
lemma stateAfter_eq (qr : List ScriptQueryResult) (n : Nat) :
    stateAfter qr n = n := by
  induction n with
  | zero => rfl
  | succ n ih =>
    unfold stateAfter
    rw [ih, iterStep_eq]

/-- Converting a list of reflected values never fails and is order
preserving. -/
lemma mapM_value_into_lua (l : List DynValue) :
    l.mapM value_into_lua = .ok (l.map LuaValue.reflected) := by
  induction l with
  | nil => rfl
  | cons v vs ih =>
    rw [List.mapM_cons, ih]
    rfl

/-- A small concrete snapshot for exercising the stepping function. -/
def demoSnapshot : List ScriptQueryResult :=
  [⟨1, [10]⟩, ⟨2, [20]⟩]

/-- C2: the stepping function returned by `iter` yields, on its `i`-th call
(the captured cursor after `i` calls is `i`), the `i`-th snapshot entry when
`i` is below the snapshot length, and the exhausted marker (`none`) on every
call at or past the length — repeatedly, since the cursor only grows — and it
never reaches the panic branch (`.error`), so the `unwrap` is unreachable. -/
theorem iter_stepping (qr : List ScriptQueryResult) (i : Nat) :
    stateAfter qr i = i ∧
    (∀ h : i < qr.length, iterStep qr i = .ok (some (qr.get ⟨i, h⟩), i + 1)) ∧
    (qr.length ≤ i → iterStep qr i = .ok (none, i + 1)) ∧
    (∀ msg, iterStep qr i ≠ .error msg) := by
  refine ⟨stateAfter_eq qr i, ?_, ?_, ?_⟩
  · intro h
    rw [iterStep_eq, List.get?_eq_get h]
  · intro h
    rw [iterStep_eq, List.get?_eq_none.mpr h]
  · intro msg hcontra
    rw [iterStep_eq] at hcontra
    exact Except.noConfusion hcontra

/-- Witness: on the two-element demo snapshot, call 1 yields the second
entry and call 5 (past the end) yields the exhausted marker. -/
theorem iter_stepping_witness :
    iterStep demoSnapshot 1 = .ok (some ⟨2, [20]⟩, 2) ∧
    iterStep demoSnapshot 5 = .ok (none, 6) := by
  constructor
  · have h := (iter_stepping demoSnapshot 1).2.1 (by decide)
    simpa using h
  · exact (iter_stepping demoSnapshot 5).2.2.1 (by decide)

/-- C3: unpacking a `LuaQueryResult` to multiple Lua values succeeds and
produces the converted entity id first, followed by the converted component
values in declared order. -/
theorem into_lua_multi_order (r : ScriptQueryResult) :
    into_lua_multi r =
      .ok (LuaValue.entity r.entity :: r.comps.map LuaValue.reflected) := by
  unfold into_lua_multi
  rw [mapM_value_into_lua]
  rfl

/-- A small concrete registry: two component types and one resource type. -/
def demoRegistry : TypeRegistry :=
  [⟨"Transform", "my_module::Transform", 0, false⟩,
   ⟨"Velocity", "my_module::Velocity", 1, false⟩,
   ⟨"Time", "bevy_time::Time", 2, true⟩]

/-- C1: for a registered type `T` whose short name and full path each identify
`T`'s underlying type uniquely in the registry (and no short name collides
with `T`'s full path), `get_type_by_name` resolves both `T.short_name` and
`T.type_path` to a handle with `T`'s underlying type identity — trying the
short-name match first and falling back to the full-path match — while a name
registered under neither key yields `nil` via `Ok`, not a raised error. -/
theorem get_type_by_name_resolution (reg : TypeRegistry) (T : TypeRegistration)
    (hmem : T ∈ reg)
    (hshort : ∀ r ∈ reg, r.short_name = T.short_name → r.type_id = T.type_id)
    (hpath : ∀ r ∈ reg, r.type_path = T.type_path → r.type_id = T.type_id)
    (hnoclash : ∀ r ∈ reg, r.short_name ≠ T.type_path) :
    (∃ h, get_type_by_name reg T.short_name = some h ∧
      h.type_id = T.type_id) ∧
    (∃ h, get_type_by_name reg T.type_path = some h ∧
      h.type_id = T.type_id) ∧
    (∀ n, (∀ r ∈ reg, r.short_name ≠ n ∧ r.type_path ≠ n) →
      lua_get_type_by_name reg n = .ok none) := by
  refine ⟨?_, ?_, ?_⟩
  · have hsome : (get_with_short_type_path reg T.short_name).isSome := by
      unfold get_with_short_type_path
      exact List.find?_isSome.mpr ⟨T, hmem, by simp⟩
    obtain ⟨r, hr⟩ := Option.isSome_iff_exists.mp hsome
    refine ⟨r, ?_, ?_⟩
    · unfold get_type_by_name
      rw [hr]
      rfl
    · have hpr := List.find?_some hr
      have hmr := List.mem_of_find?_eq_some hr
      exact hshort r hmr (by simpa using hpr)
  · have hnone : get_with_short_type_path reg T.type_path = none := by
      unfold get_with_short_type_path
      refine List.find?_eq_none.mpr ?_
      intro r hrmem
      simpa using hnoclash r hrmem
    have hsome : (get_with_type_path reg T.type_path).isSome := by
      unfold get_with_type_path
      exact List.find?_isSome.mpr ⟨T, hmem, by simp⟩
    obtain ⟨r, hr⟩ := Option.isSome_iff_exists.mp hsome
    refine ⟨r, ?_, ?_⟩
    · unfold get_type_by_name
      rw [hnone, hr]
      rfl
    · have hpr := List.find?_some hr
      have hmr := List.mem_of_find?_eq_some hr
      exact hpath r hmr (by simpa using hpr)
  · intro n hn
    have h1 : get_with_short_type_path reg n = none := by
      unfold get_with_short_type_path
      refine List.find?_eq_none.mpr ?_
      intro r hrmem
      simpa using (hn r hrmem).1
    have h2 : get_with_type_path reg n = none := by
      unfold get_with_type_path
      refine List.find?_eq_none.mpr ?_
      intro r hrmem
      simpa using (hn r hrmem).2
    unfold lua_get_type_by_name get_type_by_name
    rw [h1, h2]
    rfl

/-- Witness: in the demo registry, both names of `Velocity` resolve to its
type identity and an unregistered name resolves to `nil`. -/
theorem get_type_by_name_resolution_witness :
    (∃ h, get_type_by_name demoRegistry "Velocity" = some h ∧
      h.type_id = 1) ∧
    (∃ h, get_type_by_name demoRegistry "my_module::Velocity" = some h ∧
      h.type_id = 1) ∧
    lua_get_type_by_name demoRegistry "Unregistered" = .ok none := by
  have h := get_type_by_name_resolution demoRegistry
    ⟨"Velocity", "my_module::Velocity", 1, false⟩
    (by decide) (by decide) (by decide) (by decide)
  exact ⟨h.1, h.2.1, h.2.2 "Unregistered" (by decide)⟩

/-- A small concrete world: entities 1 and 2 live, entity 1 holding a
component of type 0, one resource of type 2, entity 2 a child of entity 1. -/
def demoWorld : World :=
  { live := [1, 2],
    components := [((1, 0), 5)],
    resources := [(2, 7)],
    childrenOf := [(1, [2])] }

/-- C4: `get_component` on a live entity lacking the component returns `nil`
(`Ok(None)`), not a raised error; an entity id that no longer resolves raises
a `RuntimeError` carrying a message string. -/
theorem get_component_absence_vs_error (w : World) (e : EntityId) (t : TypeId) :
    (w.isLive e = true → w.components.lookup (e, t) = none →
      lua_get_component w e t = .ok none) ∧
    (w.isLive e = false →
      ∃ msg, lua_get_component w e t = .error (.RuntimeError msg)) := by
  constructor
  · intro hl ha
    simp [lua_get_component, ScriptWorld.get_component, hl, ha]
  · intro hl
    refine ⟨"invalid entity reference in get_component", ?_⟩
    simp [lua_get_component, ScriptWorld.get_component, hl]

/-- Witness: in the demo world, live entity 2 lacks type 0 and gets `nil`;
the dead entity 9 raises an error. -/
theorem get_component_absence_vs_error_witness :
    lua_get_component demoWorld 2 0 = .ok none ∧
    ∃ msg, lua_get_component demoWorld 9 0 = .error (.RuntimeError msg) := by
  constructor
  · exact (get_component_absence_vs_error demoWorld 2 0).1 (by decide) (by decide)
  · exact (get_component_absence_vs_error demoWorld 9 0).2 (by decide)

/-- C5: on a handle without `ReflectResource` data, both `has_resource` and
`remove_resource` raise `RuntimeError("Not a resource {short_name}")` — and
`remove_resource` leaves the world unchanged; on a resource-capable handle,
`has_resource` returns `true` exactly when the world holds that resource. -/
theorem resource_capability_check (w : World) (t : TypeRegistration) :
    (t.has_reflect_resource = false →
      lua_has_resource w t =
        .error (.RuntimeError ("Not a resource " ++ t.short_name)) ∧
      lua_remove_resource w t =
        (.error (.RuntimeError ("Not a resource " ++ t.short_name)), w)) ∧
    (t.has_reflect_resource = true →
      (lua_has_resource w t = .ok true ↔
        ∃ v, w.resources.lookup t.type_id = some v)) := by
  constructor
  · intro hf
    constructor <;>
      simp [lua_has_resource, lua_remove_resource,
        TypeRegistration.reflect_resource_data, hf]
  · intro ht
    simp [lua_has_resource, TypeRegistration.reflect_resource_data, ht,
      World.hasResourceOf, Option.isSome_iff_exists]

/-- Witness: a component-only handle raises "Not a resource Transform" from
both methods without touching the world; the resource-capable `Time` handle
reports presence in the demo world. -/
theorem resource_capability_check_witness :
    lua_has_resource demoWorld ⟨"Transform", "my_module::Transform", 0, false⟩ =
      .error (.RuntimeError "Not a resource Transform") ∧
    lua_remove_resource demoWorld ⟨"Transform", "my_module::Transform", 0, false⟩ =
      (.error (.RuntimeError "Not a resource Transform"), demoWorld) ∧
    lua_has_resource demoWorld ⟨"Time", "bevy_time::Time", 2, true⟩ = .ok true := by
  have h1 := (resource_capability_check demoWorld
    ⟨"Transform", "my_module::Transform", 0, false⟩).1 (by decide)
  have h2 := (resource_capability_check demoWorld
    ⟨"Time", "bevy_time::Time", 2, true⟩).2 (by decide)
  exact ⟨h1.1, h1.2, h2.mpr ⟨7, by decide⟩⟩

/-- Stepping a cursor along any world trajectory depends only on the captured
snapshot and the start index: step `i` yields the snapshot entry at
`k + i`. -/
lemma outputsAlong_from (qr : List ScriptQueryResult) (ws : List World)
    (k : Nat) :
    Cursor.outputsAlong ⟨qr, k⟩ ws =
      (List.range ws.length).map (fun i => qr.get? (k + i)) := by
  induction ws generalizing k with
  | nil => rfl
  | cons w ws ih =>
    show (let (o, c2) := Cursor.stepInWorld ⟨qr, k⟩ w
          o :: c2.outputsAlong ws) = _
    rw [show Cursor.stepInWorld ⟨qr, k⟩ w = (qr.get? k, ⟨qr, k + 1⟩) by
      simp [Cursor.stepInWorld, iterStep_eq]]
    show qr.get? k :: Cursor.outputsAlong ⟨qr, k + 1⟩ ws = _
    rw [ih (k + 1), List.length_cons, List.range_succ_eq_map, List.map_cons,
      List.map_map]
    congr 1
    · apply List.map_congr_left
      intro i _
      show qr.get? (k + 1 + i) = qr.get? (k + (i + 1))
      congr 1
      omega

/-- Reading a list at every index of its range reproduces the list. -/
lemma range_map_get? {α : Type} (l : List α) :
    (List.range l.length).map (fun i => l.get? i) = l.map some := by
  induction l with
  | nil => rfl
  | cons a l ih =>
    rw [List.length_cons, List.range_succ_eq_map, List.map_cons, List.map_map]
    have hc : ((fun i => (a :: l).get? i) ∘ Nat.succ) = fun i => l.get? i := by
      funext i
      rfl
    rw [hc, ih]
    rfl

/-- C6: a built query is an eager snapshot exposed through a pure cursor:
along any trajectory of (possibly mutated) worlds the outputs are exactly the
snapshot entries in build-time order, independent of the worlds passed at
step time, so iteration from a fresh cursor is restartable and a full pass
reproduces the snapshot. -/
theorem query_snapshot_iteration (b : ScriptQueryBuilder) (w : World)
    (qr : List ScriptQueryResult) (h : b.build w = .ok qr) :
    (∀ ws : List World,
      Cursor.outputsAlong ⟨qr, 0⟩ ws =
        (List.range ws.length).map (fun i => qr.get? i)) ∧
    (∀ ws : List World, ws.length = qr.length →
      Cursor.outputsAlong ⟨qr, 0⟩ ws = qr.map some) := by
  constructor
  · intro ws
    simpa using outputsAlong_from qr ws 0
  · intro ws hlen
    have hout := outputsAlong_from qr ws 0
    simp only [Nat.zero_add] at hout
    rw [hout, hlen, range_map_get?]

/-- A mutation of the demo world made after a query was built. -/
def demoWorldMutated : World :=
  { live := [2], components := [], resources := [], childrenOf := [] }

/-- Witness: the query for component type 0 over the demo world builds the
snapshot `[(entity 1, [5])]`; stepping it across later-mutated worlds still
yields that entry then the exhausted marker, repeatedly. -/
theorem query_snapshot_iteration_witness :
    Cursor.outputsAlong ⟨[⟨1, [5]⟩], 0⟩
        [demoWorldMutated, demoWorldMutated, demoWorld] =
      [some ⟨1, [5]⟩, none, none] ∧
    Cursor.outputsAlong ⟨[⟨1, [5]⟩], 0⟩ [demoWorldMutated] =
      [⟨1, [5]⟩].map some := by
  have h := query_snapshot_iteration ⟨[0], [], []⟩ demoWorld [⟨1, [5]⟩] rfl
  constructor
  · rw [h.1 [demoWorldMutated, demoWorldMutated, demoWorld]]
    rfl
  · exact h.2 [demoWorldMutated] rfl

/-- Liveness is membership in the live list. -/
lemma isLive_iff_mem (w : World) (e : EntityId) :
    w.isLive e = true ↔ e ∈ w.live := by
  simp [World.isLive, List.contains, List.elem_eq_mem]

/-- C7: `insert_children` with an index at or beyond the parent's current
child count clamps to the end: the children land after the existing ones and
the call returns `Ok(())`, not an error. -/
theorem insert_children_clamp (w : World) (p : EntityId) (index : Nat)
    (cs : List EntityId) (h : (w.getChildren p).length ≤ index) :
    lua_insert_children w p index cs =
      (.ok (), w.setChildren p (w.getChildren p ++ cs)) := by
  simp only [lua_insert_children, ScriptWorld.insert_children,
    Nat.min_eq_right h, List.take_length, List.drop_length, List.append_nil]

/-- Witness: entity 1 has one child, and inserting at index 5 appends at the
end without an error. -/
theorem insert_children_clamp_witness :
    lua_insert_children demoWorld 1 5 [3] =
      (.ok (), demoWorld.setChildren 1 ([2] ++ [3])) := by
  have h := insert_children_clamp demoWorld 1 5 [3] (by decide)
  simpa using h

/-- The demo world after removing entity 1's only component. -/
def demoWorldRemoved : World :=
  { demoWorld with components := [] }

/-- C8: `remove_component` on a live entity lacking the component raises no
error and returns the world unchanged; and whenever it succeeds, running it
again on the result succeeds with the very same state (idempotence). -/
theorem remove_component_noop_idempotent (w : World) (e : EntityId)
    (t : TypeId) :
    (w.isLive e = true → w.components.lookup (e, t) = none →
      lua_remove_component w e t = .ok w) ∧
    (∀ w2, lua_remove_component w e t = .ok w2 →
      lua_remove_component w2 e t = .ok w2) := by
  constructor
  · intro hl ha
    have hfix : w.components.filter (fun c => c.1 != (e, t)) = w.components := by
      refine List.filter_eq_self.mpr ?_
      intro c hc
      have hb := List.lookup_eq_none_iff.mp ha c hc
      exact bne_iff_ne.mpr (Ne.symm (bne_iff_ne.mp hb))
    simp [lua_remove_component, ScriptWorld.remove_component, hl, hfix]
  · intro w2 h2
    by_cases hl : w.isLive e = true
    · have hw2 : w2 =
          { w with components := w.components.filter (fun c => c.1 != (e, t)) } := by
        simp [lua_remove_component, ScriptWorld.remove_component, hl] at h2
        exact h2.symm
      subst hw2
      have hfix : (w.components.filter (fun c => c.1 != (e, t))).filter
          (fun c => c.1 != (e, t)) =
          w.components.filter (fun c => c.1 != (e, t)) := by
        refine List.filter_eq_self.mpr ?_
        intro c hc
        exact (List.mem_filter.mp hc).2
      have hmem : e ∈ w.live := (isLive_iff_mem w e).mp hl
      simp [lua_remove_component, ScriptWorld.remove_component, World.isLive,
        List.contains, List.elem_eq_mem, hmem, hfix]
    · exfalso
      simp [lua_remove_component, ScriptWorld.remove_component, hl] at h2

/-- Witness: removing type 0 from live entity 2 (which lacks it) returns the
demo world unchanged; and the successful removal from entity 1 is idempotent. -/
theorem remove_component_noop_idempotent_witness :
    lua_remove_component demoWorld 2 0 = .ok demoWorld ∧
    lua_remove_component demoWorldRemoved 1 0 = .ok demoWorldRemoved := by
  constructor
  · exact (remove_component_noop_idempotent demoWorld 2 0).1 (by decide)
      (by decide)
  · exact (remove_component_noop_idempotent demoWorld 1 0).2 demoWorldRemoved
      rfl

/-- Removing an element from a list by filtering leaves a list that no longer
contains it. -/
lemma contains_filter_ne (l : List EntityId) (e : EntityId) :
    (l.filter (fun x => x != e)).contains e = false := by
  simp [List.contains, List.elem_eq_mem, List.mem_filter]

/-- C9: `despawn` returns `Ok` of a boolean for every input — `true` exactly
when the entity was live (and afterwards it no longer resolves), `false` with
the world untouched when it was already gone — never a raised error. -/
theorem despawn_returns_bool (w : World) (e : EntityId) :
    lua_despawn w e = .ok (World.despawn w e) ∧
    (World.despawn w e).1 = w.isLive e ∧
    (World.despawn w e).2.isLive e = false ∧
    (w.isLive e = false → (World.despawn w e).2 = w) := by
  refine ⟨rfl, ?_, ?_, ?_⟩
  · cases hb : w.isLive e <;> simp [World.despawn, hb]
  · cases hb : w.isLive e
    · simp [World.despawn, hb]
    · have hmem : e ∈ w.live := (isLive_iff_mem w e).mp hb
      simp [World.despawn, World.isLive, List.contains, List.elem_eq_mem,
        hmem, List.mem_filter]
  · intro hfalse
    simp [World.despawn, hfalse]

/-- Witness: despawning the missing entity 9 yields `false` and the unchanged
demo world; despawning the live entity 2 yields `true`. -/
theorem despawn_returns_bool_witness :
    (World.despawn demoWorld 9).2 = demoWorld ∧
    (World.despawn demoWorld 2).1 = true := by
  constructor
  · exact (despawn_returns_bool demoWorld 9).2.2.2 (by decide)
  · have h := (despawn_returns_bool demoWorld 2).2.1
    rw [h]
    decide

/-- C10: `push_children` with a parent entity id that no longer resolves
completes with `Ok(())` — no raised error — and leaves the world unchanged:
the attach is silently skipped. -/
theorem push_children_dead_parent (w : World) (p : EntityId)
    (cs : List EntityId) (h : w.isLive p = false) :
    lua_push_children w p cs = (.ok (), w) := by
  simp [lua_push_children, World.get_entity_mut, h]

/-- Witness: attaching to the missing parent 9 is a silent no-op on the demo
world. -/
theorem push_children_dead_parent_witness :
    lua_push_children demoWorld 9 [2] = (.ok (), demoWorld) :=
  push_children_dead_parent demoWorld 9 [2] (by decide)

end BevyModScripting
